import Mathlib

/-!
Verification of the MatrixAdd custom operator (src/matrix_add/matrix_add_op.cc).

The operator adds two equally-shaped rank-4 tensors and a scalar bias;
its gradient passes the upstream gradient through to both inputs.
We embed the shape-inference function, the CPU and GPU `Compute` bodies of
both the forward and the gradient kernel, and the kernel/op registrations,
and prove the spec claims about them.

Tensors are modelled as a shape (list of dimension sizes) together with a
flat row-major buffer, represented as a total function from flat index to
element.  Freshly allocated buffers carry arbitrary ("junk") contents,
passed in explicitly, so that claims about zero-initialisation and about
independence from uninitialized memory are expressible.

Element arithmetic is kept abstract: the kernels are parameterised by the
combination `add3 a b bias` that line 122 of the source
(`out = matrix_a + matrix_b + bias_`) performs for the element type in
question.  The concrete instantiation for the `int` element type, with its
C++ usual-arithmetic-conversion through `float`, is defined further below
for the numerical claim.
-/

namespace MatrixAdd

/-- Write value `v` at flat index `i` of buffer `buf`. -/
def store {α : Type} (buf : Nat → α) (i : Nat) (v : α) : Nat → α :=
  fun j => if j = i then v else buf j

/-- A tensor: a shape (list of dimension sizes, row-major) and a flat
element buffer.  Indices at or beyond the element count are uninitialized
memory outside the allocation. -/
structure Tens (α : Type) where
  shape : List Nat
  data : Nat → α

/-- The element count `TensorShape::num_elements` / `Tensor::NumElements`:
the product of the
dimension sizes. -/
def Tens.numElements {α : Type} (t : Tens α) : Nat :=
  t.shape.prod

/-- The dimension accessor `shape().dim_size(i)`. -/
def Tens.dimSize {α : Type} (t : Tens α) (i : Nat) : Nat :=
  t.shape.getD i 0

/-- Observational equality of tensors: same shape and same contents at
every flat index inside the allocation. -/
def Tens.ObsEq {α : Type} (t u : Tens α) : Prop :=
  t.shape = u.shape ∧ ∀ i, i < t.numElements → t.data i = u.data i

/-- Row-major flat index of logical position `(b, r, c, d)` in a tensor
with trailing dimensions `M, N, D` (Eigen row-major `tensor<Dtype, 4>`
indexing). -/
def flatIdx (M N D b r c d : Nat) : Nat :=
  ((b * M + r) * N + c) * D + d

/-- Forward CPU kernel body, lines 90-123 of the source: read the four
dimensions of `matrix_a`, allocate the output with shape `[B, M, N, D]`
(contents `junk` until written), then run the nested `b, r, c, d` loop
writing `matrix_a(b,r,c,d) + matrix_b(b,r,c,d) + bias_` at each logical
position.  Each operand tensor is indexed through its own Eigen map, hence
with its own trailing dimensions. -/
def matrixAddCpuCompute {α β : Type} (add3 : α → α → β → α)
    (matrix_a matrix_b : Tens α) (bias : β) (junk : Nat → α) : Tens α :=
  let B := matrix_a.dimSize 0
  let M := matrix_a.dimSize 1
  let N := matrix_a.dimSize 2
  let D := matrix_a.dimSize 3
  let Mb := matrix_b.dimSize 1
  let Nb := matrix_b.dimSize 2
  let Db := matrix_b.dimSize 3
  let out :=
    (List.range B).foldl (fun buf b =>
      (List.range M).foldl (fun buf r =>
        (List.range N).foldl (fun buf c =>
          (List.range D).foldl (fun buf d =>
            store buf (flatIdx M N D b r c d)
              (add3 (matrix_a.data (flatIdx M N D b r c d))
                    (matrix_b.data (flatIdx Mb Nb Db b r c d))
                    bias)) buf) buf) buf) junk
  ⟨[B, M, N, D], out⟩

/-- Modelled from the spec: the device-side forward kernel
(`MatrixAddOpForwardCudaKernelLauncher`, declared in the missing
`matrix_add_op.cu.hh`) applies `a[i] + b[i] + bias` over the flat element
range `0 .. N-1`, writing into the output buffer `top`. -/
def matrixAddForwardCudaKernel {α β : Type} (add3 : α → α → β → α)
    (top : Nat → α) (N : Nat) (inA inB : Nat → α) (bias : β) : Nat → α :=
  (List.range N).foldl (fun buf i => store buf i (add3 (inA i) (inB i) bias)) top

/-- Forward GPU dispatcher body, lines 141-162 of the source: take
`N = matrix_a.NumElements()`, allocate the output with `matrix_a.shape()`,
and hand the raw flat buffers and the bias to the device kernel launcher. -/
def matrixAddGpuCompute {α β : Type} (add3 : α → α → β → α)
    (matrix_a matrix_b : Tens α) (bias : β) (junk : Nat → α) : Tens α :=
  let N := matrix_a.numElements
  ⟨matrix_a.shape,
   matrixAddForwardCudaKernel add3 junk N matrix_a.data matrix_b.data bias⟩

/-- Flat index list of the gradient fill loop, lines 197-200 of the
source: `for (int i = 0; i < N; ++i)` with `N = top_diff.NumElements()`. -/
def gradFillIndices {α : Type} (top_diff : Tens α) : List Nat :=
  List.range top_diff.numElements

/-- Gradient CPU kernel body, lines 178-202 of the source: read
`top_diff = input(0)` and `features = input(1)` (that is, `matrix_a`; the
third input `matrix_b` is never read), allocate both outputs with
`features.shape()`, zero each allocated buffer with `setZero`, then run
the fill loop writing `topdiff_ptr[i]` into both gradient buffers at flat
index `i` for `i < top_diff.NumElements()`. -/
def matrixAddGradCpuCompute {α : Type} [Zero α]
    (top_diff features matrix_b : Tens α)
    (junkA junkB : Nat → α) : Tens α × Tens α :=
  let zeroedA : Nat → α := fun i => if i < features.numElements then 0 else junkA i
  let zeroedB : Nat → α := fun i => if i < features.numElements then 0 else junkB i
  let filled :=
    (gradFillIndices top_diff).foldl
      (fun (bufs : (Nat → α) × (Nat → α)) i =>
        (store bufs.1 i (top_diff.data i), store bufs.2 i (top_diff.data i)))
      (zeroedA, zeroedB)
  (⟨features.shape, filled.1⟩, ⟨features.shape, filled.2⟩)

/-- Modelled from the spec: the device-side gradient kernel
(`MatrixAddOpBackwardCudaKernelLauncher`, declared in the missing
`matrix_add_op.cu.hh`) is the identity pass-through: over the flat range
`0 .. N-1` it writes `topdiff[i]` into both gradient buffers in one
launch; the `matrix_a` and `matrix_b` pointers it also receives are unused
by the identity gradient. -/
def matrixAddBackwardCudaKernel {α : Type} (topdiff : Nat → α) (N : Nat)
    (inA inB : Nat → α) (gradA gradB : Nat → α) : (Nat → α) × (Nat → α) :=
  (List.range N).foldl
    (fun (bufs : (Nat → α) × (Nat → α)) i =>
      (store bufs.1 i (topdiff i), store bufs.2 i (topdiff i)))
    (gradA, gradB)

/-- Gradient GPU dispatcher body, lines 215-231 of the source: take
`N = top_diff.shape().num_elements()`, allocate `grad_matrix_a` with
`matrix_a.shape()` and `grad_matrix_b` with `matrix_b.shape()` (no
`setZero` on this path), and hand the raw buffers to the device kernel
launcher. -/
def matrixAddGradGpuCompute {α : Type}
    (top_diff matrix_a matrix_b : Tens α)
    (junkA junkB : Nat → α) : Tens α × Tens α :=
  let N := top_diff.numElements
  let bufs := matrixAddBackwardCudaKernel top_diff.data N
    matrix_a.data matrix_b.data junkA junkB
  (⟨matrix_a.shape, bufs.1⟩, ⟨matrix_b.shape, bufs.2⟩)

/-- The error taxonomy of the shape-inference layer: `WithRank` and
`Merge` both report a shape mismatch as a failed `Status`. -/
inductive ShapeError : Type
  | shapeMismatch : ShapeError
deriving DecidableEq

/-- The check `InferenceContext::WithRank` for a fully known shape: succeeds with
the shape itself when its rank equals `r`, otherwise fails. -/
def withRank (s : List Nat) (r : Nat) : Except ShapeError (List Nat) :=
  if s.length = r then .ok s else .error .shapeMismatch

/-- The check `InferenceContext::Merge` for fully known shapes: succeeds when the
two shapes agree dimension-by-dimension, otherwise fails. -/
def mergeShapes (a b : List Nat) : Except ShapeError (List Nat) :=
  if a = b then .ok a else .error .shapeMismatch

/-- The `SetShapeFn` lambda of `REGISTER_OP("MatrixAdd")`, lines 25-52 of
the source: require rank 4 of both inputs, merge the two input shapes,
then emit the output shape `[B, M, N, D]` rebuilt from the dimensions of
input 0. -/
def matrixAddShapeFn (in0 in1 : List Nat) : Except ShapeError (List Nat) := do
  let _ ← withRank in0 4
  let _ ← withRank in1 4
  let _ ← mergeShapes in0 in1
  let B := in0.getD 0 0
  let M := in0.getD 1 0
  let N := in0.getD 2 0
  let D := in0.getD 3 0
  pure [B, M, N, D]

/-- An op registration as far as graph-construction shape checking is
concerned: an optional shape-inference function over the list of input
shapes. -/
structure OpRegistration where
  shapeFn : Option (List (List Nat) → Except ShapeError (List Nat))

/-- Registration `REGISTER_OP("MatrixAdd")` with its `SetShapeFn`, two inputs. -/
def matrixAddOpReg : OpRegistration :=
  ⟨some (fun inputs => matrixAddShapeFn (inputs.getD 0 []) (inputs.getD 1 []))⟩

/-- Registration `REGISTER_OP("MatrixAddGrad")`, lines 64-74 of the source: three
inputs, two outputs, and no `SetShapeFn` call at all. -/
def matrixAddGradOpReg : OpRegistration :=
  ⟨none⟩

/-- Graph-construction shape validation of one op node: run the
registered shape-inference function if there is one; an op registered
without a shape function undergoes no rank or shape validation. -/
def graphValidate (reg : OpRegistration) (inputs : List (List Nat)) :
    Except ShapeError Unit :=
  match reg.shapeFn with
  | none => .ok ()
  | some f => do
      let _ ← f inputs
      pure ()

/-!
### Model of the C++ `int` element path

Line 122 of the source is `out = matrix_a + matrix_b + bias_` where
`bias_` has C++ type `float`.  When the element type `Dtype` is `int`
(registered by `REGISTER_MYCOPY_KERNELS(int)`, line 251), the C++ usual
arithmetic conversions apply: `matrix_a + matrix_b` is computed in `int`,
that sum is converted to `float`, `bias_` is added in `float`, and the
`float` result is converted back to `int` by the assignment, truncating
toward zero.

IEEE-754 binary32 values and operations are modelled over `ℚ`:
`f32round` is round-to-nearest, ties-to-even at significand precision 24.
Exponent-range effects (overflow to infinity, subnormal rounding below
`2 ^ (-126)`) are outside the modelled range and do not arise at any value
these theorems evaluate.
-/

/-- Round a rational to the nearest integer, ties to the even integer. -/
def roundNearestEven (q : ℚ) : ℤ :=
  let f := ⌊q⌋
  let r := q - f
  if r < 1 / 2 then f
  else if 1 / 2 < r then f + 1
  else if f % 2 = 0 then f else f + 1

/-- IEEE-754 binary32 rounding (round to nearest, ties to even, 24-bit
significand) of a rational in the normal range: scale the magnitude into
`[2 ^ 23, 2 ^ 24)`, round to the nearest even integer, and scale back. -/
def f32round (q : ℚ) : ℚ :=
  if q = 0 then 0
  else
    let e : ℤ := Int.log 2 |q|
    let m : ℚ := |q| * 2 ^ ((23 : ℤ) - e)
    let sgn : ℚ := if q < 0 then -1 else 1
    sgn * (roundNearestEven m : ℚ) * 2 ^ (e - (23 : ℤ))

/-- C++ `int` to `float` conversion: rounds to the nearest representable
binary32 value. -/
def f32ofInt (z : ℤ) : ℚ :=
  f32round (z : ℚ)

/-- IEEE-754 binary32 addition: exact sum followed by rounding. -/
def f32add (x y : ℚ) : ℚ :=
  f32round (x + y)

/-- C++ `float` to `int` conversion: truncation toward zero (the integral
part is within `int` range at every value these theorems evaluate). -/
def i32ofF32 (q : ℚ) : ℤ :=
  if 0 ≤ q then ⌊q⌋ else ⌈q⌉

/-- The elementwise combination of line 122 at `Dtype = int`:
`int + int` in `int`, converted to `float`, plus the `float` bias in
`float`, assigned back to `int` with truncation toward zero. -/
def cppIntAdd3 (a b : ℤ) (bias : ℚ) : ℤ :=
  i32ofF32 (f32add (f32ofInt (a + b)) bias)

/-!
### Index bookkeeping used by the loop characterisations
-/

/-- Sweep a list of flat indices, storing `g i` at each index `i`. -/
def writeAll {α : Type} (g : Nat → α) (l : List Nat) (buf : Nat → α) : Nat → α :=
  l.foldl (fun b i => store b i (g i)) buf

/-- The flat indices touched by the nested `b, r, c, d` loop of the CPU
forward kernel, in iteration order. -/
def nestedIndices (B M N D : Nat) : List Nat :=
  (List.range B).flatMap fun b =>
    (List.range M).flatMap fun r =>
      (List.range N).flatMap fun c =>
        (List.range D).map fun d => flatIdx M N D b r c d

/-!
### Allocation-failure wrappers

`allocate_output` can fail; `OP_REQUIRES_OK` then aborts the whole
`Compute` call with an error status and no usable outputs.  Each wrapper
takes the allocator's responses (a fresh uninitialized buffer, or `none`
for failure) in the order the kernel requests them, and returns either
the kernel's outputs or the error.
-/

/-- Forward CPU `Compute` with its single fallible output allocation
(line 115). -/
def matrixAddCpuComputeChecked {α β : Type} (add3 : α → α → β → α)
    (matrix_a matrix_b : Tens α) (bias : β)
    (alloc : Option (Nat → α)) : Except Unit (Tens α) :=
  match alloc with
  | none => .error ()
  | some junk => .ok (matrixAddCpuCompute add3 matrix_a matrix_b bias junk)

/-- Forward GPU `Compute` with its single fallible output allocation
(line 152). -/
def matrixAddGpuComputeChecked {α β : Type} (add3 : α → α → β → α)
    (matrix_a matrix_b : Tens α) (bias : β)
    (alloc : Option (Nat → α)) : Except Unit (Tens α) :=
  match alloc with
  | none => .error ()
  | some junk => .ok (matrixAddGpuCompute add3 matrix_a matrix_b bias junk)

/-- Gradient CPU `Compute` with its two fallible output allocations
(lines 187 and 191), requested in order. -/
def matrixAddGradCpuComputeChecked {α : Type} [Zero α]
    (top_diff features matrix_b : Tens α)
    (allocA allocB : Option (Nat → α)) : Except Unit (Tens α × Tens α) :=
  match allocA with
  | none => .error ()
  | some junkA =>
    match allocB with
    | none => .error ()
    | some junkB =>
      .ok (matrixAddGradCpuCompute top_diff features matrix_b junkA junkB)

/-- Gradient GPU `Compute` with its two fallible output allocations
(lines 224 and 226), requested in order. -/
def matrixAddGradGpuComputeChecked {α : Type}
    (top_diff matrix_a matrix_b : Tens α)
    (allocA allocB : Option (Nat → α)) : Except Unit (Tens α × Tens α) :=
  match allocA with
  | none => .error ()
  | some junkA =>
    match allocB with
    | none => .error ()
    | some junkB =>
      .ok (matrixAddGradGpuCompute top_diff matrix_a matrix_b junkA junkB)

/-- Forward invocation pipeline: graph-construction shape inference on
the input shapes runs first; only when it succeeds is the kernel (with
its output allocation) ever reached.  A shape-inference failure therefore
yields no output for any allocator behaviour. -/
def forwardPipeline {α β : Type} (add3 : α → α → β → α)
    (matrix_a matrix_b : Tens α) (bias : β)
    (alloc : Option (Nat → α)) : Option (Tens α) :=
  match matrixAddShapeFn matrix_a.shape matrix_b.shape with
  | .error _ => none
  | .ok _ =>
    match matrixAddCpuComputeChecked add3 matrix_a matrix_b bias alloc with
    | .error _ => none
    | .ok t => some t

/-!
### Characterisation of the buffer sweeps
-/

theorem writeAll_eq {α : Type} (g : Nat → α) (l : List Nat) (buf : Nat → α)
    (j : Nat) : writeAll g l buf j = if j ∈ l then g j else buf j := by
  induction l generalizing buf with
  | nil => simp [writeAll]
  | cons i t ih =>
    simp only [writeAll, List.foldl_cons] at ih ⊢
    rw [ih]
    by_cases hjt : j ∈ t
    · simp [hjt]
    · by_cases hji : j = i
      · subst hji; simp [store, hjt]
      · simp [store, hjt, hji]

theorem writeAll_append {α : Type} (g : Nat → α) (l1 l2 : List Nat)
    (buf : Nat → α) :
    writeAll g (l1 ++ l2) buf = writeAll g l2 (writeAll g l1 buf) := by
  simp [writeAll, List.foldl_append]

theorem writeAll_flatMap {α γ : Type} (g : Nat → α) (f : γ → List Nat)
    (l : List γ) (buf : Nat → α) :
    writeAll g (l.flatMap f) buf = l.foldl (fun b x => writeAll g (f x) b) buf := by
  induction l generalizing buf with
  | nil => simp [writeAll]
  | cons x t ih =>
    rw [List.flatMap_cons, writeAll_append, List.foldl_cons, ih]

theorem writeAll_map {α γ : Type} (g : Nat → α) (h : γ → Nat) (l : List γ)
    (buf : Nat → α) :
    writeAll g (l.map h) buf = l.foldl (fun b x => store b (h x) (g (h x))) buf := by
  simp [writeAll, List.foldl_map]

theorem flatIdx_lt {B M N D b r c d : Nat} (hb : b < B) (hr : r < M)
    (hc : c < N) (hd : d < D) : flatIdx M N D b r c d < B * (M * (N * D)) := by
  have h1 : flatIdx M N D b r c d < ((b * M + r) * N + c + 1) * D := by
    rw [flatIdx]; nlinarith
  have h2 : ((b * M + r) * N + c + 1) * D ≤ ((b + 1) * M * N) * D := by
    have : (b * M + r) * N + c + 1 ≤ (b + 1) * M * N := by nlinarith
    exact Nat.mul_le_mul_right D this
  have h3 : ((b + 1) * M * N) * D ≤ (B * M * N) * D := by
    have hbB : b + 1 ≤ B := hb
    have : (b + 1) * M * N ≤ B * M * N :=
      Nat.mul_le_mul_right N (Nat.mul_le_mul_right M hbB)
    exact Nat.mul_le_mul_right D this
  calc flatIdx M N D b r c d < ((b * M + r) * N + c + 1) * D := h1
    _ ≤ ((b + 1) * M * N) * D := h2
    _ ≤ (B * M * N) * D := h3
    _ = B * (M * (N * D)) := by ring

theorem flatIdx_surj {B M N D j : Nat} (hj : j < B * (M * (N * D))) :
    ∃ b, b < B ∧ ∃ r, r < M ∧ ∃ c, c < N ∧ ∃ d, d < D ∧
      flatIdx M N D b r c d = j := by
  have hne : B * (M * (N * D)) ≠ 0 := by omega
  rw [mul_ne_zero_iff, mul_ne_zero_iff, mul_ne_zero_iff] at hne
  have hB : 0 < B := Nat.pos_of_ne_zero hne.1
  have hM : 0 < M := Nat.pos_of_ne_zero hne.2.1
  have hN : 0 < N := Nat.pos_of_ne_zero hne.2.2.1
  have hD : 0 < D := Nat.pos_of_ne_zero hne.2.2.2
  refine ⟨j / D / N / M, ?_, j / D / N % M, Nat.mod_lt _ hM,
    j / D % N, Nat.mod_lt _ hN, j % D, Nat.mod_lt _ hD, ?_⟩
  · rw [Nat.div_lt_iff_lt_mul hM, Nat.div_lt_iff_lt_mul hN,
      Nat.div_lt_iff_lt_mul hD]
    calc j < B * (M * (N * D)) := hj
      _ = B * M * N * D := by ring
  · rw [flatIdx]
    have e1 : j / D / N / M * M + j / D / N % M = j / D / N := by
      rw [mul_comm]; exact Nat.div_add_mod _ M
    have e2 : j / D / N * N + j / D % N = j / D := by
      rw [mul_comm]; exact Nat.div_add_mod _ N
    have e3 : j / D * D + j % D = j := by
      rw [mul_comm]; exact Nat.div_add_mod _ D
    rw [e1, e2, e3]

theorem mem_nestedIndices {B M N D j : Nat} :
    j ∈ nestedIndices B M N D ↔ j < B * (M * (N * D)) := by
  simp only [nestedIndices, List.mem_flatMap, List.mem_map, List.mem_range]
  constructor
  · rintro ⟨b, hb, r, hr, c, hc, d, hd, rfl⟩
    exact flatIdx_lt hb hr hc hd
  · intro hj
    obtain ⟨b, hb, r, hr, c, hc, d, hd, he⟩ := flatIdx_surj hj
    exact ⟨b, hb, r, hr, c, hc, d, hd, he⟩

theorem quadLoop_eq_writeAll {α : Type} (g : Nat → α) (B M N D : Nat)
    (buf : Nat → α) :
    ((List.range B).foldl (fun buf b =>
      (List.range M).foldl (fun buf r =>
        (List.range N).foldl (fun buf c =>
          (List.range D).foldl (fun buf d =>
            store buf (flatIdx M N D b r c d) (g (flatIdx M N D b r c d)))
            buf) buf) buf) buf)
    = writeAll g (nestedIndices B M N D) buf := by
  rw [nestedIndices, writeAll_flatMap]
  simp only [writeAll_flatMap, writeAll_map]

theorem shape_eq_four {l : List Nat} (h : l.length = 4) :
    ∃ a b c d, l = [a, b, c, d] := by
  rcases l with _ | ⟨a, _ | ⟨b, _ | ⟨c, _ | ⟨d, _ | ⟨e, t⟩⟩⟩⟩⟩ <;>
    simp only [List.length] at h <;> first
      | exact ⟨a, b, c, d, rfl⟩
      | omega

theorem prod_four {α : Type} {t : Tens α} {a b c d : Nat}
    (h : t.shape = [a, b, c, d]) : t.numElements = a * (b * (c * d)) := by
  simp [Tens.numElements, h, List.prod_cons]

theorem matrixAddCpuCompute_data {α β : Type} (add3 : α → α → β → α)
    (matrix_a matrix_b : Tens α) (bias : β) (junk : Nat → α)
    (h4 : matrix_a.shape.length = 4) (hsh : matrix_b.shape = matrix_a.shape)
    (j : Nat) :
    (matrixAddCpuCompute add3 matrix_a matrix_b bias junk).data j =
      if j < matrix_a.numElements then
        add3 (matrix_a.data j) (matrix_b.data j) bias
      else junk j := by
  obtain ⟨B, M, N, D, hBMND⟩ := shape_eq_four h4
  have ha0 : matrix_a.dimSize 0 = B := by simp [Tens.dimSize, hBMND]
  have ha1 : matrix_a.dimSize 1 = M := by simp [Tens.dimSize, hBMND]
  have ha2 : matrix_a.dimSize 2 = N := by simp [Tens.dimSize, hBMND]
  have ha3 : matrix_a.dimSize 3 = D := by simp [Tens.dimSize, hBMND]
  have hb1 : matrix_b.dimSize 1 = M := by simp [Tens.dimSize, hsh, hBMND]
  have hb2 : matrix_b.dimSize 2 = N := by simp [Tens.dimSize, hsh, hBMND]
  have hb3 : matrix_b.dimSize 3 = D := by simp [Tens.dimSize, hsh, hBMND]
  simp only [matrixAddCpuCompute, ha0, ha1, ha2, ha3, hb1, hb2, hb3]
  rw [quadLoop_eq_writeAll
    (fun i => add3 (matrix_a.data i) (matrix_b.data i) bias) B M N D junk]
  rw [writeAll_eq]
  simp only [mem_nestedIndices, prod_four hBMND]

theorem matrixAddCpuCompute_shape {α β : Type} (add3 : α → α → β → α)
    (matrix_a matrix_b : Tens α) (bias : β) (junk : Nat → α)
    (h4 : matrix_a.shape.length = 4) :
    (matrixAddCpuCompute add3 matrix_a matrix_b bias junk).shape =
      matrix_a.shape := by
  obtain ⟨B, M, N, D, hBMND⟩ := shape_eq_four h4
  simp [matrixAddCpuCompute, Tens.dimSize, hBMND]

theorem matrixAddGpuCompute_data {α β : Type} (add3 : α → α → β → α)
    (matrix_a matrix_b : Tens α) (bias : β) (junk : Nat → α) (j : Nat) :
    (matrixAddGpuCompute add3 matrix_a matrix_b bias junk).data j =
      if j < matrix_a.numElements then
        add3 (matrix_a.data j) (matrix_b.data j) bias
      else junk j := by
  have h := writeAll_eq (fun i => add3 (matrix_a.data i) (matrix_b.data i) bias)
    (List.range matrix_a.numElements) junk j
  simp only [List.mem_range] at h
  exact h

theorem pair_foldl_store {α : Type} (g : Nat → α) (l : List Nat)
    (p : (Nat → α) × (Nat → α)) :
    l.foldl (fun bufs i => (store bufs.1 i (g i), store bufs.2 i (g i))) p =
      (writeAll g l p.1, writeAll g l p.2) := by
  induction l generalizing p with
  | nil => simp [writeAll]
  | cons i t ih =>
    simp only [List.foldl_cons, writeAll] at ih ⊢
    rw [ih]

theorem matrixAddGradCpuCompute_fst_data {α : Type} [Zero α]
    (top_diff features matrix_b : Tens α) (junkA junkB : Nat → α) (j : Nat) :
    (matrixAddGradCpuCompute top_diff features matrix_b junkA junkB).1.data j =
      if j < top_diff.numElements then top_diff.data j
      else if j < features.numElements then 0 else junkA j := by
  simp only [matrixAddGradCpuCompute, gradFillIndices]
  rw [pair_foldl_store]
  simp only [writeAll_eq, List.mem_range]

theorem matrixAddGradCpuCompute_snd_data {α : Type} [Zero α]
    (top_diff features matrix_b : Tens α) (junkA junkB : Nat → α) (j : Nat) :
    (matrixAddGradCpuCompute top_diff features matrix_b junkA junkB).2.data j =
      if j < top_diff.numElements then top_diff.data j
      else if j < features.numElements then 0 else junkB j := by
  simp only [matrixAddGradCpuCompute, gradFillIndices]
  rw [pair_foldl_store]
  simp only [writeAll_eq, List.mem_range]

theorem matrixAddGradGpuCompute_fst_data {α : Type}
    (top_diff matrix_a matrix_b : Tens α) (junkA junkB : Nat → α) (j : Nat) :
    (matrixAddGradGpuCompute top_diff matrix_a matrix_b junkA junkB).1.data j =
      if j < top_diff.numElements then top_diff.data j else junkA j := by
  simp only [matrixAddGradGpuCompute, matrixAddBackwardCudaKernel]
  rw [pair_foldl_store]
  simp only [writeAll_eq, List.mem_range]

theorem matrixAddGradGpuCompute_snd_data {α : Type}
    (top_diff matrix_a matrix_b : Tens α) (junkA junkB : Nat → α) (j : Nat) :
    (matrixAddGradGpuCompute top_diff matrix_a matrix_b junkA junkB).2.data j =
      if j < top_diff.numElements then top_diff.data j else junkB j := by
  simp only [matrixAddGradGpuCompute, matrixAddBackwardCudaKernel]
  rw [pair_foldl_store]
  simp only [writeAll_eq, List.mem_range]

theorem getD_four {l : List Nat} (h : l.length = 4) :
    [l.getD 0 0, l.getD 1 0, l.getD 2 0, l.getD 3 0] = l := by
  obtain ⟨a, b, c, d, rfl⟩ := shape_eq_four h
  rfl

theorem matrixAddShapeFn_eq (in0 in1 : List Nat) :
    matrixAddShapeFn in0 in1 =
      if in0.length = 4 ∧ in1.length = 4 ∧ in0 = in1 then .ok in0
      else .error .shapeMismatch := by
  unfold matrixAddShapeFn withRank mergeShapes
  by_cases h0 : in0.length = 4
  · by_cases h1 : in1.length = 4
    · by_cases h2 : in0 = in1
      · rw [if_pos h0, if_pos h1, if_pos h2, if_pos ⟨h0, h1, h2⟩]
        show Except.ok [in0.getD 0 0, in0.getD 1 0, in0.getD 2 0, in0.getD 3 0] =
          Except.ok in0
        rw [getD_four h0]
      · rw [if_pos h0, if_pos h1, if_neg h2,
          if_neg (show ¬(in0.length = 4 ∧ in1.length = 4 ∧ in0 = in1) from
            fun hc => h2 hc.2.2)]
        rfl
    · rw [if_pos h0, if_neg h1,
        if_neg (show ¬(in0.length = 4 ∧ in1.length = 4 ∧ in0 = in1) from
          fun hc => h1 hc.2.1)]
      rfl
  · rw [if_neg h0,
      if_neg (show ¬(in0.length = 4 ∧ in1.length = 4 ∧ in0 = in1) from
        fun hc => h0 hc.1)]
    rfl

theorem Tens.extEq {α : Type} {t u : Tens α} (h1 : t.shape = u.shape)
    (h2 : ∀ j, t.data j = u.data j) : t = u := by
  cases t; cases u
  simp only [Tens.mk.injEq]
  exact ⟨h1, funext h2⟩

/-- Claim C1: for every pair of input tensors of identical 4-dimensional
shape, every element combination (the `a + b + bias` of the element type
in question) and every bias, the CPU forward kernel's nested `B, M, N, D`
loop leaves `add3 A[i] B[i] bias` at every flat index `i` of the
output. -/
theorem forward_cpu_elementwise {α β : Type} (add3 : α → α → β → α)
    (A B : Tens α) (bias : β) (junk : Nat → α)
    (h4 : A.shape.length = 4) (hsh : B.shape = A.shape)
    (i : Nat) (hi : i < A.numElements) :
    (matrixAddCpuCompute add3 A B bias junk).data i =
      add3 (A.data i) (B.data i) bias := by
  rw [matrixAddCpuCompute_data add3 A B bias junk h4 hsh i, if_pos hi]

/-- Witness for C1: on the spec example shape `[1, 1, 1, 3]` with integer
data, flat index 2 of the forward output is `A[2] + B[2] + bias`. -/
theorem forward_cpu_elementwise_witness :
    (matrixAddCpuCompute (fun (a b bias : ℤ) => a + b + bias)
      ⟨[1, 1, 1, 3], fun i => (i : ℤ)⟩ ⟨[1, 1, 1, 3], fun _ => 10⟩ 100
      (fun _ => 0)).data 2 = 112 := by
  rw [forward_cpu_elementwise (fun (a b bias : ℤ) => a + b + bias)
    ⟨[1, 1, 1, 3], fun i => (i : ℤ)⟩ ⟨[1, 1, 1, 3], fun _ => 10⟩ 100
    (fun _ => 0) rfl rfl 2 (by decide)]
  decide

/-- Claim C3: the forward shape inference fails exactly when an input is
not rank 4 or the shapes are not pairwise equal; on success the output
shape is the input shape; and on failure the forward invocation pipeline
produces no output tensor, whatever the allocator does, so nothing is
allocated and no kernel runs. -/
theorem forward_shape_inference (in0 in1 : List Nat) :
    ((∃ e, matrixAddShapeFn in0 in1 = .error e) ↔
      (in0.length ≠ 4 ∨ in1.length ≠ 4 ∨ in0 ≠ in1)) ∧
    (∀ out, matrixAddShapeFn in0 in1 = .ok out → out = in0) ∧
    (∀ {α β : Type} (add3 : α → α → β → α) (A B : Tens α) (bias : β)
      (alloc : Option (Nat → α)), A.shape = in0 → B.shape = in1 →
      (∃ e, matrixAddShapeFn in0 in1 = .error e) →
      forwardPipeline add3 A B bias alloc = none) := by
  refine ⟨?_, ?_, ?_⟩
  · rw [matrixAddShapeFn_eq]
    split_ifs with h
    · constructor
      · rintro ⟨e, he⟩; cases he
      · intro hcon
        rcases h with ⟨h0, h1, h2⟩
        rcases hcon with h' | h' | h' <;> exact (h' (by assumption)).elim
    · constructor
      · intro _
        by_contra hcon
        push_neg at hcon
        exact h ⟨hcon.1, hcon.2.1, hcon.2.2⟩
      · intro _; exact ⟨.shapeMismatch, rfl⟩
  · intro out hout
    rw [matrixAddShapeFn_eq] at hout
    split_ifs at hout with h
    · cases hout; rfl
  · intro α β add3 A B bias alloc hA hB ⟨e, he⟩
    rw [forwardPipeline, hA, hB, he]

/-- Claim C5: on equally-shaped rank-4 inputs, the shape-explicit nested
`B, M, N, D` loop of the CPU kernel and the flat-index sweep handed to
the GPU launcher produce identical output tensors (same shape, same
buffer contents, starting from the same fresh buffer). -/
theorem cpu_gpu_forward_agree {α β : Type} (add3 : α → α → β → α)
    (A B : Tens α) (bias : β) (junk : Nat → α)
    (h4 : A.shape.length = 4) (hsh : B.shape = A.shape) :
    matrixAddCpuCompute add3 A B bias junk =
      matrixAddGpuCompute add3 A B bias junk := by
  apply Tens.extEq
  · rw [matrixAddCpuCompute_shape add3 A B bias junk h4]
    rfl
  · intro j
    rw [matrixAddCpuCompute_data add3 A B bias junk h4 hsh j,
      matrixAddGpuCompute_data add3 A B bias junk j]

/-- Witness for C5: the two iteration orders agree on a concrete
`[1, 1, 1, 2]` integer instance. -/
theorem cpu_gpu_forward_agree_witness :
    matrixAddCpuCompute (fun (a b bias : ℤ) => a + b + bias)
      ⟨[1, 1, 1, 2], fun i => (i : ℤ)⟩ ⟨[1, 1, 1, 2], fun i => (2 * i : ℤ)⟩ 5
      (fun _ => 0) =
    matrixAddGpuCompute (fun (a b bias : ℤ) => a + b + bias)
      ⟨[1, 1, 1, 2], fun i => (i : ℤ)⟩ ⟨[1, 1, 1, 2], fun i => (2 * i : ℤ)⟩ 5
      (fun _ => 0) :=
  cpu_gpu_forward_agree (fun (a b bias : ℤ) => a + b + bias)
    ⟨[1, 1, 1, 2], fun i => (i : ℤ)⟩ ⟨[1, 1, 1, 2], fun i => (2 * i : ℤ)⟩ 5
    (fun _ => 0) rfl rfl

/-- Claim C9: the CPU gradient kernel allocates both outputs with the
shape of its second input `matrix_a` (the `features` tensor), its result
never depends on `matrix_b`, and every write of its fill loop lands
inside the allocated buffers exactly when the upstream gradient has no
more elements than `matrix_a`. -/
theorem grad_alloc_shape_and_bounds {α : Type} [Zero α]
    (G matrix_a matrix_b : Tens α) (junkA junkB : Nat → α) :
    ((matrixAddGradCpuCompute G matrix_a matrix_b junkA junkB).1.shape =
        matrix_a.shape ∧
      (matrixAddGradCpuCompute G matrix_a matrix_b junkA junkB).2.shape =
        matrix_a.shape) ∧
    (∀ matrix_b2 : Tens α,
      matrixAddGradCpuCompute G matrix_a matrix_b junkA junkB =
        matrixAddGradCpuCompute G matrix_a matrix_b2 junkA junkB) ∧
    ((∀ i ∈ gradFillIndices G, i < matrix_a.numElements) ↔
      G.numElements ≤ matrix_a.numElements) := by
  refine ⟨⟨rfl, rfl⟩, fun matrix_b2 => rfl, ?_⟩
  simp only [gradFillIndices, List.mem_range]
  constructor
  · intro h
    rcases Nat.eq_zero_or_pos G.numElements with h0 | h0
    · omega
    · have := h (G.numElements - 1) (by omega)
      omega
  · intro h i hi
    omega

/-- Claim C10: `MatrixAddGrad` is registered without a shape-inference
function, so graph construction accepts its three inputs at every
combination of ranks and shapes, while the forward `MatrixAdd`
registration rejects rank-3 inputs and unequal rank-4 shapes. -/
theorem grad_no_shape_validation :
    (∀ g a b : List Nat,
      graphValidate matrixAddGradOpReg [g, a, b] = .ok ()) ∧
    matrixAddGradOpReg.shapeFn = none ∧
    graphValidate matrixAddOpReg [[2, 3, 4], [2, 3, 4]] =
      .error .shapeMismatch ∧
    graphValidate matrixAddOpReg [[2, 3, 4, 5], [2, 3, 4, 6]] =
      .error .shapeMismatch := by
  exact ⟨fun g a b => rfl, rfl, rfl, rfl⟩

/-- A sample valid rank-4 single-element integer tensor used by concrete
witnesses. -/
def tOne : Tens ℤ :=
  ⟨[1, 1, 1, 1], fun _ => 1⟩

/-- Claim C2: on a valid upstream gradient (same shape as the forward
inputs), both gradient outputs of the CPU path and of the GPU path carry
the gradient's shape and equal the upstream gradient at every flat
index. -/
theorem backward_passthrough {α : Type} [Zero α]
    (G matrix_a matrix_b : Tens α) (junkA junkB : Nat → α)
    (hsha : G.shape = matrix_a.shape) (hshb : matrix_b.shape = matrix_a.shape) :
    ((matrixAddGradCpuCompute G matrix_a matrix_b junkA junkB).1.shape = G.shape ∧
      (matrixAddGradCpuCompute G matrix_a matrix_b junkA junkB).2.shape = G.shape ∧
      (matrixAddGradGpuCompute G matrix_a matrix_b junkA junkB).1.shape = G.shape ∧
      (matrixAddGradGpuCompute G matrix_a matrix_b junkA junkB).2.shape = G.shape) ∧
    ∀ i, i < G.numElements →
      ((matrixAddGradCpuCompute G matrix_a matrix_b junkA junkB).1.data i = G.data i ∧
        (matrixAddGradCpuCompute G matrix_a matrix_b junkA junkB).2.data i = G.data i ∧
        (matrixAddGradGpuCompute G matrix_a matrix_b junkA junkB).1.data i = G.data i ∧
        (matrixAddGradGpuCompute G matrix_a matrix_b junkA junkB).2.data i = G.data i) := by
  constructor
  · exact ⟨hsha.symm, hsha.symm, hsha.symm, hshb.trans hsha.symm⟩
  · intro i hi
    refine ⟨?_, ?_, ?_, ?_⟩ <;>
      simp [matrixAddGradCpuCompute_fst_data, matrixAddGradCpuCompute_snd_data,
        matrixAddGradGpuCompute_fst_data, matrixAddGradGpuCompute_snd_data, hi]

/-- Witness for C2: concrete pass-through on a one-element gradient. -/
theorem backward_passthrough_witness :
    (matrixAddGradCpuCompute tOne tOne tOne (fun _ => 4) (fun _ => 5)).1.data 0 =
        tOne.data 0 ∧
      (matrixAddGradCpuCompute tOne tOne tOne (fun _ => 4) (fun _ => 5)).2.data 0 =
        tOne.data 0 ∧
      (matrixAddGradGpuCompute tOne tOne tOne (fun _ => 4) (fun _ => 5)).1.data 0 =
        tOne.data 0 ∧
      (matrixAddGradGpuCompute tOne tOne tOne (fun _ => 4) (fun _ => 5)).2.data 0 =
        tOne.data 0 :=
  (backward_passthrough tOne tOne tOne (fun _ => 4) (fun _ => 5) rfl rfl).2 0
    (by decide)

/-- Claim C4 (counterexample): the GPU gradient path does not
zero-initialize its outputs.  With an empty upstream gradient and a
one-element `matrix_a`, the allocated element of `grad_matrix_a` still
holds its uninitialized contents (7) after the GPU `Compute`, where the
claimed zero-initialization would force 0; the CPU path on the same
inputs does read 0 there. -/
theorem gpu_grad_not_zero_initialized :
    (matrixAddGradGpuCompute (α := ℤ) ⟨[1, 1, 1, 0], fun _ => 0⟩
      ⟨[1, 1, 1, 1], fun _ => 0⟩ ⟨[1, 1, 1, 1], fun _ => 0⟩
      (fun _ => 7) (fun _ => 7)).1.data 0 = 7 ∧
    0 < (matrixAddGradGpuCompute (α := ℤ) ⟨[1, 1, 1, 0], fun _ => 0⟩
      ⟨[1, 1, 1, 1], fun _ => 0⟩ ⟨[1, 1, 1, 1], fun _ => 0⟩
      (fun _ => 7) (fun _ => 7)).1.numElements ∧
    (matrixAddGradCpuCompute (α := ℤ) ⟨[1, 1, 1, 0], fun _ => 0⟩
      ⟨[1, 1, 1, 1], fun _ => 0⟩ ⟨[1, 1, 1, 1], fun _ => 0⟩
      (fun _ => 7) (fun _ => 7)).1.data 0 = 0 := by
  refine ⟨rfl, ?_, rfl⟩
  decide

/-- Claim C4 (amended): both gradient outputs are independently allocated
on both paths, but only the CPU path zero-initializes them: a CPU output
element not reached by the fill loop reads 0, while the corresponding GPU
output element still holds the allocation's uninitialized contents. -/
theorem grad_zero_init_cpu_only {α : Type} [Zero α]
    (top_diff features matrix_b : Tens α) (junkA junkB : Nat → α) (i : Nat)
    (hif : i < features.numElements) (hit : ¬ i < top_diff.numElements) :
    ((matrixAddGradCpuCompute top_diff features matrix_b junkA junkB).1.data i = 0 ∧
      (matrixAddGradCpuCompute top_diff features matrix_b junkA junkB).2.data i = 0) ∧
    ((matrixAddGradGpuCompute top_diff features matrix_b junkA junkB).1.data i = junkA i ∧
      (matrixAddGradGpuCompute top_diff features matrix_b junkA junkB).2.data i = junkB i) := by
  refine ⟨⟨?_, ?_⟩, ?_, ?_⟩ <;>
    simp [matrixAddGradCpuCompute_fst_data, matrixAddGradCpuCompute_snd_data,
      matrixAddGradGpuCompute_fst_data, matrixAddGradGpuCompute_snd_data, hif, hit]

/-- Witness for the amended C4: on an empty gradient with one-element
forward inputs, the CPU outputs read 0 where the GPU outputs read their
uninitialized 5 and 9. -/
theorem grad_zero_init_cpu_only_witness :
    ((matrixAddGradCpuCompute (α := ℤ) ⟨[1, 1, 1, 0], fun _ => 0⟩
        ⟨[1, 1, 1, 1], fun _ => 0⟩ ⟨[1, 1, 1, 1], fun _ => 0⟩
        (fun _ => 5) (fun _ => 9)).1.data 0 = 0 ∧
      (matrixAddGradCpuCompute (α := ℤ) ⟨[1, 1, 1, 0], fun _ => 0⟩
        ⟨[1, 1, 1, 1], fun _ => 0⟩ ⟨[1, 1, 1, 1], fun _ => 0⟩
        (fun _ => 5) (fun _ => 9)).2.data 0 = 0) ∧
    ((matrixAddGradGpuCompute (α := ℤ) ⟨[1, 1, 1, 0], fun _ => 0⟩
        ⟨[1, 1, 1, 1], fun _ => 0⟩ ⟨[1, 1, 1, 1], fun _ => 0⟩
        (fun _ => 5) (fun _ => 9)).1.data 0 = 5 ∧
      (matrixAddGradGpuCompute (α := ℤ) ⟨[1, 1, 1, 0], fun _ => 0⟩
        ⟨[1, 1, 1, 1], fun _ => 0⟩ ⟨[1, 1, 1, 1], fun _ => 0⟩
        (fun _ => 5) (fun _ => 9)).2.data 0 = 9) :=
  grad_zero_init_cpu_only ⟨[1, 1, 1, 0], fun _ => 0⟩ ⟨[1, 1, 1, 1], fun _ => 0⟩
    ⟨[1, 1, 1, 1], fun _ => 0⟩ (fun _ => 5) (fun _ => 9) 0 (by decide) (by decide)

/-- Claim C6: on valid (equally shaped, rank-4) inputs, every output
element inside the allocation of every path — forward CPU, forward GPU,
gradient CPU, gradient GPU — is independent of the uninitialized contents
of the freshly allocated buffers: two invocations on identical inputs and
bias agree observationally whatever junk the allocator returned. -/
theorem determinism_junk_independent {α β : Type} [Zero α]
    (add3 : α → α → β → α) (matrix_a matrix_b top_diff : Tens α) (bias : β)
    (junk1 junk2 junkA1 junkB1 junkA2 junkB2 : Nat → α)
    (h4 : matrix_a.shape.length = 4) (hshb : matrix_b.shape = matrix_a.shape)
    (hshg : top_diff.shape = matrix_a.shape) :
    Tens.ObsEq (matrixAddCpuCompute add3 matrix_a matrix_b bias junk1)
      (matrixAddCpuCompute add3 matrix_a matrix_b bias junk2) ∧
    Tens.ObsEq (matrixAddGpuCompute add3 matrix_a matrix_b bias junk1)
      (matrixAddGpuCompute add3 matrix_a matrix_b bias junk2) ∧
    (Tens.ObsEq (matrixAddGradCpuCompute top_diff matrix_a matrix_b junkA1 junkB1).1
      (matrixAddGradCpuCompute top_diff matrix_a matrix_b junkA2 junkB2).1 ∧
      Tens.ObsEq (matrixAddGradCpuCompute top_diff matrix_a matrix_b junkA1 junkB1).2
        (matrixAddGradCpuCompute top_diff matrix_a matrix_b junkA2 junkB2).2) ∧
    (Tens.ObsEq (matrixAddGradGpuCompute top_diff matrix_a matrix_b junkA1 junkB1).1
      (matrixAddGradGpuCompute top_diff matrix_a matrix_b junkA2 junkB2).1 ∧
      Tens.ObsEq (matrixAddGradGpuCompute top_diff matrix_a matrix_b junkA1 junkB1).2
        (matrixAddGradGpuCompute top_diff matrix_a matrix_b junkA2 junkB2).2) := by
  have hnum : matrix_a.numElements = top_diff.numElements := by
    rw [Tens.numElements, Tens.numElements, hshg]
  have hnumb : matrix_b.numElements = matrix_a.numElements := by
    rw [Tens.numElements, Tens.numElements, hshb]
  refine ⟨⟨rfl, ?_⟩, ⟨rfl, ?_⟩, ⟨⟨rfl, ?_⟩, rfl, ?_⟩, ⟨rfl, ?_⟩, rfl, ?_⟩
  · intro i hi
    have hi' : i < matrix_a.numElements := by
      have hsh := matrixAddCpuCompute_shape add3 matrix_a matrix_b bias junk1 h4
      rw [Tens.numElements, hsh] at hi
      exact hi
    rw [matrixAddCpuCompute_data add3 matrix_a matrix_b bias junk1 h4 hshb i,
      matrixAddCpuCompute_data add3 matrix_a matrix_b bias junk2 h4 hshb i,
      if_pos hi', if_pos hi']
  · intro i hi
    have hi' : i < matrix_a.numElements := hi
    rw [matrixAddGpuCompute_data add3 matrix_a matrix_b bias junk1 i,
      matrixAddGpuCompute_data add3 matrix_a matrix_b bias junk2 i,
      if_pos hi', if_pos hi']
  · intro i hi
    have hi' : i < matrix_a.numElements := hi
    rw [matrixAddGradCpuCompute_fst_data top_diff matrix_a matrix_b junkA1 junkB1 i,
      matrixAddGradCpuCompute_fst_data top_diff matrix_a matrix_b junkA2 junkB2 i]
    by_cases ht : i < top_diff.numElements <;> simp [ht, hi']
  · intro i hi
    have hi' : i < matrix_a.numElements := hi
    rw [matrixAddGradCpuCompute_snd_data top_diff matrix_a matrix_b junkA1 junkB1 i,
      matrixAddGradCpuCompute_snd_data top_diff matrix_a matrix_b junkA2 junkB2 i]
    by_cases ht : i < top_diff.numElements <;> simp [ht, hi']
  · intro i hi
    have hi' : i < top_diff.numElements := by
      have : i < matrix_a.numElements := hi
      omega
    rw [matrixAddGradGpuCompute_fst_data top_diff matrix_a matrix_b junkA1 junkB1 i,
      matrixAddGradGpuCompute_fst_data top_diff matrix_a matrix_b junkA2 junkB2 i,
      if_pos hi', if_pos hi']
  · intro i hi
    have hi' : i < top_diff.numElements := by
      have : i < matrix_b.numElements := hi
      omega
    rw [matrixAddGradGpuCompute_snd_data top_diff matrix_a matrix_b junkA1 junkB1 i,
      matrixAddGradGpuCompute_snd_data top_diff matrix_a matrix_b junkA2 junkB2 i,
      if_pos hi', if_pos hi']

/-- Witness for C6: concrete observational agreement across junk choices
on a one-element instance. -/
theorem determinism_junk_independent_witness :
    Tens.ObsEq (matrixAddCpuCompute (fun (a b c : ℤ) => a + b + c) tOne tOne 2 (fun _ => 11))
      (matrixAddCpuCompute (fun (a b c : ℤ) => a + b + c) tOne tOne 2 (fun _ => 22)) ∧
    Tens.ObsEq (matrixAddGpuCompute (fun (a b c : ℤ) => a + b + c) tOne tOne 2 (fun _ => 11))
      (matrixAddGpuCompute (fun (a b c : ℤ) => a + b + c) tOne tOne 2 (fun _ => 22)) ∧
    (Tens.ObsEq (matrixAddGradCpuCompute tOne tOne tOne (fun _ => 11) (fun _ => 12)).1
      (matrixAddGradCpuCompute tOne tOne tOne (fun _ => 21) (fun _ => 22)).1 ∧
      Tens.ObsEq (matrixAddGradCpuCompute tOne tOne tOne (fun _ => 11) (fun _ => 12)).2
        (matrixAddGradCpuCompute tOne tOne tOne (fun _ => 21) (fun _ => 22)).2) ∧
    (Tens.ObsEq (matrixAddGradGpuCompute tOne tOne tOne (fun _ => 11) (fun _ => 12)).1
      (matrixAddGradGpuCompute tOne tOne tOne (fun _ => 21) (fun _ => 22)).1 ∧
      Tens.ObsEq (matrixAddGradGpuCompute tOne tOne tOne (fun _ => 11) (fun _ => 12)).2
        (matrixAddGradGpuCompute tOne tOne tOne (fun _ => 21) (fun _ => 22)).2) :=
  determinism_junk_independent (fun (a b c : ℤ) => a + b + c) tOne tOne tOne 2
    (fun _ => 11) (fun _ => 22) (fun _ => 11) (fun _ => 12) (fun _ => 21)
    (fun _ => 22) rfl rfl rfl

/-- Claim C7: with valid inputs, each of the four `Compute` bodies either
fails as a whole (an allocation was refused) or returns fully populated
outputs: every element inside every returned tensor's allocation holds
the operator's specified value.  No partial-success result exists. -/
theorem no_partial_success {α β : Type} [Zero α] (add3 : α → α → β → α)
    (matrix_a matrix_b top_diff : Tens α) (bias : β)
    (h4 : matrix_a.shape.length = 4) (hshb : matrix_b.shape = matrix_a.shape)
    (hshg : top_diff.shape = matrix_a.shape) :
    (∀ alloc, matrixAddCpuComputeChecked add3 matrix_a matrix_b bias alloc =
        .error () ∨
      ∃ t, matrixAddCpuComputeChecked add3 matrix_a matrix_b bias alloc = .ok t ∧
        t.shape = matrix_a.shape ∧
        ∀ i, i < t.numElements →
          t.data i = add3 (matrix_a.data i) (matrix_b.data i) bias) ∧
    (∀ alloc, matrixAddGpuComputeChecked add3 matrix_a matrix_b bias alloc =
        .error () ∨
      ∃ t, matrixAddGpuComputeChecked add3 matrix_a matrix_b bias alloc = .ok t ∧
        t.shape = matrix_a.shape ∧
        ∀ i, i < t.numElements →
          t.data i = add3 (matrix_a.data i) (matrix_b.data i) bias) ∧
    (∀ allocA allocB,
      matrixAddGradCpuComputeChecked top_diff matrix_a matrix_b allocA allocB =
        .error () ∨
      ∃ p, matrixAddGradCpuComputeChecked top_diff matrix_a matrix_b allocA
          allocB = .ok p ∧
        p.1.shape = matrix_a.shape ∧ p.2.shape = matrix_a.shape ∧
        ∀ i, i < p.1.numElements →
          p.1.data i = top_diff.data i ∧ p.2.data i = top_diff.data i) ∧
    (∀ allocA allocB,
      matrixAddGradGpuComputeChecked top_diff matrix_a matrix_b allocA allocB =
        .error () ∨
      ∃ p, matrixAddGradGpuComputeChecked top_diff matrix_a matrix_b allocA
          allocB = .ok p ∧
        p.1.shape = matrix_a.shape ∧ p.2.shape = matrix_b.shape ∧
        ∀ i, i < p.1.numElements →
          p.1.data i = top_diff.data i ∧ p.2.data i = top_diff.data i) := by
  have hnum : matrix_a.numElements = top_diff.numElements := by
    rw [Tens.numElements, Tens.numElements, hshg]
  refine ⟨?_, ?_, ?_, ?_⟩
  · intro alloc
    cases alloc with
    | none => exact Or.inl rfl
    | some junk =>
      refine Or.inr ⟨_, rfl, matrixAddCpuCompute_shape add3 matrix_a matrix_b bias junk h4, ?_⟩
      intro i hi
      have hi' : i < matrix_a.numElements := by
        rw [Tens.numElements,
          matrixAddCpuCompute_shape add3 matrix_a matrix_b bias junk h4] at hi
        exact hi
      rw [matrixAddCpuCompute_data add3 matrix_a matrix_b bias junk h4 hshb i,
        if_pos hi']
  · intro alloc
    cases alloc with
    | none => exact Or.inl rfl
    | some junk =>
      refine Or.inr ⟨_, rfl, rfl, ?_⟩
      intro i hi
      have hi' : i < matrix_a.numElements := hi
      rw [matrixAddGpuCompute_data add3 matrix_a matrix_b bias junk i, if_pos hi']
  · intro allocA allocB
    cases allocA with
    | none => exact Or.inl rfl
    | some junkA =>
      cases allocB with
      | none => exact Or.inl rfl
      | some junkB =>
        refine Or.inr ⟨_, rfl, rfl, rfl, ?_⟩
        intro i hi
        have hi' : i < top_diff.numElements := by
          have : i < matrix_a.numElements := hi
          omega
        rw [matrixAddGradCpuCompute_fst_data top_diff matrix_a matrix_b junkA junkB i,
          matrixAddGradCpuCompute_snd_data top_diff matrix_a matrix_b junkA junkB i,
          if_pos hi', if_pos hi']
        exact ⟨rfl, rfl⟩
  · intro allocA allocB
    cases allocA with
    | none => exact Or.inl rfl
    | some junkA =>
      cases allocB with
      | none => exact Or.inl rfl
      | some junkB =>
        refine Or.inr ⟨_, rfl, rfl, rfl, ?_⟩
        intro i hi
        have hi' : i < top_diff.numElements := by
          have : i < matrix_a.numElements := hi
          omega
        rw [matrixAddGradGpuCompute_fst_data top_diff matrix_a matrix_b junkA junkB i,
          matrixAddGradGpuCompute_snd_data top_diff matrix_a matrix_b junkA junkB i,
          if_pos hi', if_pos hi']
        exact ⟨rfl, rfl⟩

/-- Witness for C7: on a successful one-element allocation, the forward
CPU invocation returns a fully populated output (or fails whole, which
this concrete allocator does not). -/
theorem no_partial_success_witness :
    matrixAddCpuComputeChecked (fun (a b c : ℤ) => a + b + c) tOne tOne 2
        (some (fun _ => 0)) = .error () ∨
      ∃ t, matrixAddCpuComputeChecked (fun (a b c : ℤ) => a + b + c) tOne tOne 2
          (some (fun _ => 0)) = .ok t ∧
        t.shape = tOne.shape ∧
        ∀ i, i < t.numElements →
          t.data i = (fun (a b c : ℤ) => a + b + c) (tOne.data i) (tOne.data i) 2 :=
  (no_partial_success (fun (a b c : ℤ) => a + b + c) tOne tOne tOne 2
    rfl rfl rfl).1 (some (fun _ => 0))

/-!
### Evaluation of the binary32 model at the concrete values used below
-/

theorem roundNearestEven_intCast (z : ℤ) : roundNearestEven (z : ℚ) = z := by
  simp [roundNearestEven]

theorem log_two_half : Int.log 2 ((1 : ℚ) / 2) = -1 := by
  rw [Int.log_of_right_le_one _ (by norm_num)]
  norm_num
  rw [Nat.clog_eq_one (by norm_num) (by norm_num)]

theorem f32round_zero : f32round 0 = 0 := by
  simp [f32round]

theorem f32round_half : f32round (1 / 2 : ℚ) = 1 / 2 := by
  rw [f32round]
  rw [if_neg (by norm_num)]
  simp only [abs_of_pos (show (0 : ℚ) < 1 / 2 by norm_num), log_two_half]
  rw [if_neg (by norm_num)]
  have h1 : (1 : ℚ) / 2 * 2 ^ ((23 : ℤ) - (-1)) = ((2 ^ 23 : ℤ) : ℚ) := by
    norm_num
  simp only [h1, roundNearestEven_intCast]
  norm_num

theorem f32round_neg_half : f32round (-(1 / 2) : ℚ) = -(1 / 2) := by
  rw [f32round]
  rw [if_neg (by norm_num)]
  rw [show |(-(1 / 2) : ℚ)| = 1 / 2 by rw [abs_neg, abs_of_pos] <;> norm_num]
  rw [log_two_half]
  rw [if_pos (by norm_num)]
  have h1 : (1 : ℚ) / 2 * 2 ^ ((23 : ℤ) - (-1)) = ((2 ^ 23 : ℤ) : ℚ) := by
    norm_num
  simp only [h1, roundNearestEven_intCast]
  norm_num

theorem f32round_neg_one : f32round (-1 : ℚ) = -1 := by
  rw [f32round, if_neg (by norm_num)]
  rw [show |(-1 : ℚ)| = 1 by norm_num]
  rw [show Int.log 2 (1 : ℚ) = 0 by norm_num]
  rw [if_pos (by norm_num)]
  have h1 : (1 : ℚ) * 2 ^ ((23 : ℤ) - 0) = ((2 ^ 23 : ℤ) : ℚ) := by norm_num
  simp only [h1, roundNearestEven_intCast]
  norm_num

theorem i32ofF32_half : i32ofF32 (1 / 2 : ℚ) = 0 := by
  rw [i32ofF32, if_pos (by norm_num)]
  rw [show ⌊(1 / 2 : ℚ)⌋ = 0 from by
    rw [Int.floor_eq_zero_iff]
    constructor <;> norm_num]

theorem i32ofF32_neg_half : i32ofF32 (-(1 / 2) : ℚ) = 0 := by
  rw [i32ofF32, if_neg (by norm_num), Int.ceil_neg]
  rw [show ⌊(1 / 2 : ℚ)⌋ = 0 from by
    rw [Int.floor_eq_zero_iff]
    constructor <;> norm_num]
  rfl

theorem cppIntAdd3_zero_zero : cppIntAdd3 0 0 (1 / 2) = 0 := by
  rw [cppIntAdd3, show ((0 : ℤ) + 0) = 0 from rfl, f32ofInt,
    show (((0 : ℤ)) : ℚ) = 0 from by norm_num, f32round_zero, f32add, zero_add,
    f32round_half, i32ofF32_half]

theorem cppIntAdd3_negone_zero : cppIntAdd3 (-1) 0 (1 / 2) = 0 := by
  rw [cppIntAdd3, show ((-1 : ℤ) + 0) = -1 from by ring, f32ofInt,
    show (((-1 : ℤ)) : ℚ) = -1 from by norm_num, f32round_neg_one, f32add,
    show ((-1 : ℚ) + 1 / 2) = -(1 / 2) from by norm_num, f32round_neg_half,
    i32ofF32_neg_half]

/-- Claim C8: on the `int` CPU forward path every output element is the
truncation toward zero of the binary32 sum `float(A[i] + B[i]) + bias`
(the C++ usual arithmetic conversions for `int + int + float` assigned
back to `int`), and this is not in general the exact integer sum
`A[i] + B[i]` plus any fixed integer bias: with bias `1/2` no integer `k`
reproduces the kernel on all inputs. -/
theorem int_path_float_conversion (A B : Tens ℤ) (bias : ℚ) (junk : Nat → ℤ)
    (h4 : A.shape.length = 4) (hsh : B.shape = A.shape) (i : Nat)
    (hi : i < A.numElements) :
    (matrixAddCpuCompute cppIntAdd3 A B bias junk).data i =
      i32ofF32 (f32add (f32ofInt (A.data i + B.data i)) bias) ∧
    ¬ ∃ k : ℤ, ∀ a b : ℤ, cppIntAdd3 a b (1 / 2) = a + b + k := by
  constructor
  · rw [matrixAddCpuCompute_data cppIntAdd3 A B bias junk h4 hsh i, if_pos hi]
    rfl
  · rintro ⟨k, hk⟩
    have h1 := hk 0 0
    have h2 := hk (-1) 0
    rw [cppIntAdd3_zero_zero] at h1
    rw [cppIntAdd3_negone_zero] at h2
    omega

/-- Witness for C8: with `A[0] = B[0] = 0` and bias `1/2` the `int` CPU
path produces 0 (the truncated binary32 value), exercising the conversion
chain at a concrete input. -/
theorem int_path_float_conversion_witness :
    (matrixAddCpuCompute cppIntAdd3 ⟨[1, 1, 1, 1], fun _ => 0⟩
      ⟨[1, 1, 1, 1], fun _ => 0⟩ (1 / 2) (fun _ => 0)).data 0 = 0 := by
  have h := (int_path_float_conversion ⟨[1, 1, 1, 1], fun _ => 0⟩
    ⟨[1, 1, 1, 1], fun _ => 0⟩ (1 / 2) (fun _ => 0) rfl rfl 0 (by decide)).1
  rw [h]
  exact cppIntAdd3_zero_zero

/-- Witness for C3: a concrete rank-3 pair is rejected by the forward
shape inference. -/
theorem forward_shape_inference_witness :
    ∃ e, matrixAddShapeFn [2, 3, 4] [2, 3, 4] = .error e :=
  (forward_shape_inference [2, 3, 4] [2, 3, 4]).1.mpr (Or.inl (by decide))

/-- Witness for C9: on a concrete instance the first CPU gradient output
carries the shape of `matrix_a`. -/
theorem grad_alloc_shape_and_bounds_witness :
    (matrixAddGradCpuCompute tOne tOne tOne (fun _ => 0) (fun _ => 0)).1.shape =
      tOne.shape :=
  (grad_alloc_shape_and_bounds tOne tOne tOne (fun _ => 0) (fun _ => 0)).1.1

/-- Witness for C10: a concrete rank-mixed input triple passes graph
construction for the gradient op. -/
theorem grad_no_shape_validation_witness :
    graphValidate matrixAddGradOpReg [[], [5], [1, 2, 3, 4, 5, 6]] = .ok () :=
  grad_no_shape_validation.1 [] [5] [1, 2, 3, 4, 5, 6]

end MatrixAdd
